import Mathlib

/-!
Verification of the folo TCP server core (`crates/folo/src/net/tcp_server.rs`,
`crates/folo/src/io/operation_result.rs`, `crates/folo/src/io/completion_port.rs`)
against its natural-language specification.

The Rust code is shallowly embedded: OS calls and channel interactions are
represented by explicit outcome parameters (an environment record says whether
each syscall succeeds), and the dispatcher's cooperative accept loop is
represented by a step function over the size of the in-flight accept set.
-/

namespace Folo

/-- The error taxonomy of `io::Error` as used by the TCP server core:
configuration errors (`InvalidOptions`), internal invariant messages
(`Internal`) and OS-level winsock errors carrying the platform error code. -/
inductive IoError
  | InvalidOptions (message : String)
  | Internal (message : String)
  | Winsock (detail : Int)
deriving DecidableEq, Repr

/-- A pinned byte buffer (`io::PinnedBuffer`). The buffer type itself is not
under the embedded sources; per the spec it is a fixed-capacity byte buffer
with a stable address and a mutable used-length attribute. Only its identity
and length are relevant to the embedded code, so it is modelled abstractly. -/
structure PinnedBuffer where
  id : Nat
  len : Nat
deriving DecidableEq, Repr

/-- `io::OperationError` (operation_result.rs): an error for an I/O operation
that was attempted on a data buffer; contains both the error information and
the data buffer that was used. -/
structure OperationError where
  inner : IoError
  buffer : PinnedBuffer
deriving DecidableEq, Repr

/-- `OperationError::new` (operation_result.rs). -/
def OperationError.new (inner : IoError) (buffer : PinnedBuffer) : OperationError :=
  { inner := inner, buffer := buffer }

/-- `OperationError::into_inner` (operation_result.rs). -/
def OperationError.into_inner (e : OperationError) : IoError :=
  e.inner

/-- `OperationError::into_inner_and_buffer` (operation_result.rs). -/
def OperationError.into_inner_and_buffer (e : OperationError) : IoError × PinnedBuffer :=
  (e.inner, e.buffer)

/-- `io::OperationResult = Result<PinnedBuffer, OperationError>`. -/
def OperationResult := Except OperationError PinnedBuffer

/-- `OperationResultExt::into_inner` for `OperationResult`: keeps the buffer on
success, drops the buffer and keeps only the inner error on failure. -/
def OperationResult.into_inner (r : OperationResult) : Except IoError PinnedBuffer :=
  match r with
  | .ok buffer => .ok buffer
  | .error e => .error e.inner

/-- `NonZeroU16`: the port type accepted by the builder. -/
abbrev NonZeroU16 := { n : Nat // 0 < n ∧ n < 65536 }

/-- `TcpServerHandle` (tcp_server.rs): join handle on the dispatcher task plus
the shutdown signal sender, which is consumed (`Option::take`) on first use. -/
structure TcpServerHandle where
  dispatcher_join_handle : Nat
  dispatcher_shutdown_tx : Option Unit
deriving DecidableEq, Repr

/-- `TcpServerHandle::stop` (tcp_server.rs:166-175): takes the shutdown sender
out of its slot; if it was already taken, returns immediately; otherwise sends
the shutdown signal (result ignored). The returned Bool records whether a send
was performed. -/
def TcpServerHandle.stop (h : TcpServerHandle) : TcpServerHandle × Bool :=
  match h.dispatcher_shutdown_tx with
  | none => (h, false)
  | some _ => ({ h with dispatcher_shutdown_tx := none }, true)

/-- `TcpServerBuilder` (tcp_server.rs): optional port and optional `on_accept`
callback (the callback's behaviour is irrelevant to the builder, so only its
presence is modelled). -/
structure TcpServerBuilder where
  port : Option NonZeroU16
  on_accept : Option Unit

/-- What `build` receives on the startup channel: `some (ok)` or
`some (error e)` if the dispatcher reported, `none` if the dispatcher died
(channel closed) before reporting. -/
abbrev StartupMessage := Option (Except IoError Unit)

/-- `TcpServerBuilder::build` (tcp_server.rs:66-113). Checks `port` then
`on_accept`; only after both checks does it spawn the dispatcher (the Bool in
the result records whether the dispatcher task was spawned; socket creation
happens only inside the spawned dispatcher). It then awaits the startup
channel: `Ok(Ok(()))` yields the server handle, `Ok(Err(e))` yields `Err(e)`,
a closed channel yields `Err(Internal ...)`. -/
def TcpServerBuilder.build (b : TcpServerBuilder) (msg : StartupMessage) :
    Except IoError TcpServerHandle × Bool :=
  match b.port with
  | none => (.error (.InvalidOptions "port must be set"), false)
  | some _ =>
    match b.on_accept with
    | none => (.error (.InvalidOptions "on_accept must be set"), false)
    | some _ =>
      match msg with
      | some (.ok ()) => (.ok { dispatcher_join_handle := 0, dispatcher_shutdown_tx := some () }, true)
      | some (.error e) => (.error e, true)
      | none => (.error (.Internal "TCP dispatcher died before reporting startup result"), true)

/-! ### Dispatcher startup (`TcpDispatcher::startup` / `TcpDispatcher::run`) -/

deriving instance DecidableEq for Except

/-- Outcomes of the four fallible startup steps of `TcpDispatcher::startup`
(tcp_server.rs:256-308): `WSASocketA` socket creation, `bind`, `listen`, and
binding the listening socket to the worker's completion port
(`bind_io_primitive`). Each is supplied by the environment. -/
structure StartupEnv where
  socketResult : Except IoError Unit
  bindResult : Except IoError Unit
  listenResult : Except IoError Unit
  bindToCompletionPortResult : Except IoError Unit
deriving DecidableEq, Repr

/-- How `TcpDispatcher::startup` ends: success, an error returned with `?`
(socket creation, `bind`, `listen`), or a panic. The completion-port binding
result is consumed with `.unwrap()` (tcp_server.rs:299-301), so its failure
panics instead of producing an `err` value. -/
inductive StartupOutcome
  | ok
  | err (e : IoError)
  | panicOnPortBind
deriving DecidableEq, Repr

/-- `TcpDispatcher::startup` (tcp_server.rs:256-308) as a function of the
syscall outcomes, in source order: socket creation, `bind`, `listen`
(each propagated with `?`), then `bind_io_primitive(..).unwrap()`. -/
def TcpDispatcher.startup (env : StartupEnv) : StartupOutcome :=
  match env.socketResult with
  | .error e => .err e
  | .ok () =>
    match env.bindResult with
    | .error e => .err e
    | .ok () =>
      match env.listenResult with
      | .error e => .err e
      | .ok () =>
        match env.bindToCompletionPortResult with
        | .error _ => .panicOnPortBind
        | .ok () => .ok

/-- Observable behaviour of `TcpDispatcher::run` (tcp_server.rs:233-254):
which message, if any, was sent on the single-shot startup channel (the
sender is taken exactly once, so at most one message is ever sent; `none`
means the task ended with the channel closed and no message sent), whether
the accept loop was entered, and whether the task panicked. -/
structure RunResult where
  sent : Option (Except IoError Unit)
  enteredAcceptLoop : Bool
  panicked : Bool
deriving DecidableEq, Repr

/-- `TcpDispatcher::run` (tcp_server.rs:233-254): on startup success it sends
`Ok(())` and proceeds into `run_accept_loop`; on a startup error it sends
`Err(e)` and returns; a panic inside `startup` unwinds before any send, so
the startup channel closes without a message. -/
def TcpDispatcher.run (env : StartupEnv) : RunResult :=
  match TcpDispatcher.startup env with
  | .ok => { sent := some (.ok ()), enteredAcceptLoop := true, panicked := false }
  | .err e => { sent := some (.error e), enteredAcceptLoop := false, panicked := false }
  | .panicOnPortBind => { sent := none, enteredAcceptLoop := false, panicked := true }

/-! ### The accept loop (`TcpDispatcher::run_accept_loop`) -/

/-- `CONCURRENT_ACCEPT_OPERATIONS` (tcp_server.rs:183). -/
def CONCURRENT_ACCEPT_OPERATIONS : Nat := 1024

/-- `PENDING_CONNECTION_LIMIT` (tcp_server.rs:185). -/
def PENDING_CONNECTION_LIMIT : Int := 4096

/-- The refill loop at the top of each `run_accept_loop` iteration
(tcp_server.rs:339-346): `while accept_futures.len() < CONCURRENT_ACCEPT_OPERATIONS`,
push one more `AcceptOne` future. Returns the resulting size of the set. -/
def refill (n : Nat) : Nat :=
  if h : n < CONCURRENT_ACCEPT_OPERATIONS then refill (n + 1) else n
termination_by CONCURRENT_ACCEPT_OPERATIONS - n
decreasing_by omega

/-- What the `select` in `run_accept_loop` (tcp_server.rs:354-370) resolves
with: one accept future completed (with the accept's result, a connection
socket id on success), the accept stream ended (`Either::Left((None, _))`),
or the shutdown signal fired. -/
inductive LoopEvent
  | acceptCompleted (result : Except IoError Nat)
  | streamEnded
  | shutdown

/-- One observable outcome of one trip through the body of `run_accept_loop`:
the size of the accept set at the next `select` await (`none` when the loop
returned), whether a handler task was spawned, whether an accept error was
logged, and whether the body panicked. -/
structure IterOutcome where
  next : Option Nat
  spawnedHandler : Bool
  loggedAcceptError : Bool
  panicked : Bool
deriving DecidableEq, Repr

/-- One iteration of `run_accept_loop` (tcp_server.rs:338-406) starting at the
`select` await with `pending` in-flight accepts. Shutdown returns from the
loop. A completed accept is removed from `FuturesUnordered` by `next()`
(size drops to `pending - 1`); an `Err` result is logged and the loop
continues, an `Ok` result spawns the handler task; either way the next
iteration refills before awaiting again. `Either::Left((None, _))` panics. -/
def acceptLoopIter (pending : Nat) (e : LoopEvent) : IterOutcome :=
  match e with
  | .shutdown =>
    { next := none, spawnedHandler := false, loggedAcceptError := false, panicked := false }
  | .streamEnded =>
    { next := none, spawnedHandler := false, loggedAcceptError := false, panicked := true }
  | .acceptCompleted r =>
    match r with
    | .ok _ =>
      { next := some (refill (pending - 1)), spawnedHandler := true,
        loggedAcceptError := false, panicked := false }
    | .error _ =>
      { next := some (refill (pending - 1)), spawnedHandler := false,
        loggedAcceptError := true, panicked := false }

/-- Runs `run_accept_loop` over a sequence of select outcomes, tracking the
size of the accept set at each `select` await point; `none` once the loop has
returned (or panicked). -/
def runAcceptLoop : Nat → List LoopEvent → Option Nat
  | n, [] => some n
  | n, e :: rest =>
    match (acceptLoopIter n e).next with
    | none => none
    | some n' => runAcceptLoop n' rest

/-- The size of the accept set at the `select` await reached after the given
events, starting from the loop entry with an empty `FuturesUnordered`
(tcp_server.rs:333): the first refill runs before the first await. -/
def pendingAtAwait (evs : List LoopEvent) : Option Nat :=
  runAcceptLoop (refill 0) evs

/-! ### `AcceptOne::execute` arguments -/

/-- `mem::size_of::<SOCKADDR_IN>()`: sin_family (2) + sin_port (2) +
sin_addr (4) + sin_zero (8) bytes. -/
def sizeof_SOCKADDR_IN : Nat := 16

/-- `ADDRESS_LENGTH` (tcp_server.rs:476): `mem::size_of::<SOCKADDR_IN>() + 16`. -/
def ADDRESS_LENGTH : Nat := sizeof_SOCKADDR_IN + 16

/-- The size arguments `AcceptOne::execute` passes to `AcceptEx`
(tcp_server.rs:489-511): `dwReceiveDataLength`, `dwLocalAddressLength`,
`dwRemoteAddressLength`. -/
structure AcceptExArgs where
  receiveDataLength : Nat
  localAddressLength : Nat
  remoteAddressLength : Nat
deriving DecidableEq, Repr

/-- The argument-assembly prefix of `AcceptOne::execute` (tcp_server.rs:472-511):
after `assert!(buffer.len() >= ADDRESS_LENGTH * 2)` it begins the accept with
`receive_data_length = 0` and both address slots sized `ADDRESS_LENGTH`.
`none` models the assertion panicking. -/
def AcceptOne.beginAcceptArgs (buffer : PinnedBuffer) : Option AcceptExArgs :=
  if ADDRESS_LENGTH * 2 ≤ buffer.len then
    some { receiveDataLength := 0, localAddressLength := ADDRESS_LENGTH,
           remoteAddressLength := ADDRESS_LENGTH }
  else
    none

/-! ### `CompletionPort::bind` -/

/-- `FILE_SKIP_SET_EVENT_ON_HANDLE` (winapi constant, value 2). -/
def FILE_SKIP_SET_EVENT_ON_HANDLE : Nat := 2

/-- Outcomes of the two syscalls in `CompletionPort::bind`
(completion_port.rs:40-57): `CreateIoCompletionPort` on the handle, and
`SetFileCompletionNotificationModes`. -/
structure BindEnv where
  registerResult : Except IoError Unit
  setModesResult : Except IoError Unit
deriving DecidableEq, Repr

/-- The syscalls `CompletionPort::bind` performs, in order. -/
inductive BindStep
  | registerWithPort
  | setNotificationModes (flags : Nat)
deriving DecidableEq, Repr

/-- `CompletionPort::bind` (completion_port.rs:40-57): registers the handle
with the port via `CreateIoCompletionPort` (propagating failure with `?`),
then calls `SetFileCompletionNotificationModes(handle,
FILE_SKIP_SET_EVENT_ON_HANDLE)` (again propagating failure), then returns
`Ok(())`. Returns the result together with the trace of syscalls attempted. -/
def CompletionPort.bind (env : BindEnv) : Except IoError Unit × List BindStep :=
  match env.registerResult with
  | .error e => (.error e, [.registerWithPort])
  | .ok () =>
    match env.setModesResult with
    | .error e =>
      (.error e, [.registerWithPort, .setNotificationModes FILE_SKIP_SET_EVENT_ON_HANDLE])
    | .ok () =>
      (.ok (), [.registerWithPort, .setNotificationModes FILE_SKIP_SET_EVENT_ON_HANDLE])

/-! ### Operation lifecycle and abandonment (spec §4.1)

The completion engine's `Operation` type and abandonment list are part of this
repository but outside the embedded sources (only `operation_result.rs` and
`completion_port.rs` are present), so the lifecycle is modelled from the
specification. -/

/-- Modelled from the spec: the observable state of one I/O `Operation`
(spec §3 "Operation", §4.1 "Abandonment"); the `Operation` type itself is not
among the embedded sources. Tracks whether the kernel still owes a completion
packet (`pending`), whether the awaiting future was dropped while pending
(`futureDropped`, i.e. the operation sits on the abandoned list), whether the
matching completion packet has been observed at the port, whether the result
was discarded by the engine, and whether the kernel control block / pinned
buffer have been freed. -/
structure OpState where
  pending : Bool
  futureDropped : Bool
  packetObserved : Bool
  resultDiscarded : Bool
  controlBlockFreed : Bool
  bufferFreed : Bool
deriving DecidableEq, Repr

/-- Modelled from the spec: events that can happen to a pending operation —
its future is dropped, or the kernel posts the matching completion packet
(which the engine observes at the port). -/
inductive OpEvent
  | dropFuture
  | packetArrives
deriving DecidableEq, Repr

/-- Modelled from the spec (§4.1 "Abandonment", not among the embedded
sources): dropping the future of a still-pending operation moves the
operation to the abandoned list without freeing the control block or buffer;
when the matching packet arrives for an abandoned operation, the engine
discards the result and then releases control block and buffer; when it
arrives for an awaited operation, the result (with the buffer) is delivered
to the awaiter. Events after completion have no effect. -/
def opStep (s : OpState) (e : OpEvent) : OpState :=
  match e with
  | .dropFuture =>
    if s.pending && !s.packetObserved then
      { s with futureDropped := true }
    else s
  | .packetArrives =>
    if s.pending && !s.packetObserved then
      if s.futureDropped then
        { s with pending := false, packetObserved := true, resultDiscarded := true,
                 controlBlockFreed := true, bufferFreed := true }
      else
        { s with pending := false, packetObserved := true }
    else s

/-- Modelled from the spec: an operation just begun — pending, awaited,
no packet observed, nothing freed. -/
def opBegin : OpState :=
  { pending := true, futureDropped := false, packetObserved := false,
    resultDiscarded := false, controlBlockFreed := false, bufferFreed := false }

/-- Modelled from the spec: the operation state after an arbitrary
begin/drop/complete interleaving on a single operation. -/
def opRun (evs : List OpEvent) : OpState :=
  evs.foldl opStep opBegin

/-! ### Helper lemmas -/

/-- The refill while-loop tops the accept set up to
`CONCURRENT_ACCEPT_OPERATIONS`, and leaves larger sets unchanged. -/
theorem refill_eq_max (n : Nat) : refill n = max n CONCURRENT_ACCEPT_OPERATIONS := by
  unfold refill
  split
  case isTrue h =>
    rw [refill_eq_max (n + 1)]
    omega
  case isFalse h =>
    omega
termination_by CONCURRENT_ACCEPT_OPERATIONS - n
decreasing_by omega

/-- The accept-loop invariant: starting an iteration at the await point with
the set exactly full keeps it exactly full at every later await point. -/
theorem runAcceptLoop_inv (evs : List LoopEvent) :
    ∀ n m : Nat, n = CONCURRENT_ACCEPT_OPERATIONS →
      runAcceptLoop n evs = some m → m = CONCURRENT_ACCEPT_OPERATIONS := by
  induction evs with
  | nil =>
    intro n m hn h
    simp only [runAcceptLoop, Option.some.injEq] at h
    omega
  | cons e rest ih =>
    intro n m hn h
    cases e with
    | shutdown => simp [runAcceptLoop, acceptLoopIter] at h
    | streamEnded => simp [runAcceptLoop, acceptLoopIter] at h
    | acceptCompleted r =>
      cases r with
      | ok v =>
        simp only [runAcceptLoop, acceptLoopIter] at h
        exact ih (refill (n - 1)) m (by rw [refill_eq_max]; omega) h
      | error e' =>
        simp only [runAcceptLoop, acceptLoopIter] at h
        exact ih (refill (n - 1)) m (by rw [refill_eq_max]; omega) h

/-- The abandonment invariant: resources are freed only after the packet is
observed, and only on the discard path. -/
def OpInv (s : OpState) : Prop :=
  ((s.controlBlockFreed = true ∨ s.bufferFreed = true) →
    (s.packetObserved = true ∧ s.resultDiscarded = true ∧ s.futureDropped = true)) ∧
  (s.pending = true → s.packetObserved = false)

theorem opStep_preserves_inv (s : OpState) (e : OpEvent) (h : OpInv s) : OpInv (opStep s e) := by
  obtain ⟨h1, h2⟩ := h
  cases e with
  | dropFuture =>
    simp only [opStep]
    split
    · constructor
      · intro hf
        exact ⟨(h1 hf).1, (h1 hf).2.1, rfl⟩
      · intro hp
        exact h2 hp
    · exact ⟨h1, h2⟩
  | packetArrives =>
    simp only [opStep]
    split
    case isTrue hcond =>
      split
      · exact ⟨fun _ => ⟨rfl, rfl, by assumption⟩, by simp⟩
      · refine ⟨fun hf => absurd (h1 hf).1 ?_, by simp⟩
        simp only [Bool.and_eq_true, Bool.not_eq_true'] at hcond
        simp [hcond.2]
    case isFalse hcond =>
      exact ⟨h1, h2⟩

theorem foldl_opStep_inv (evs : List OpEvent) :
    ∀ s : OpState, OpInv s → OpInv (evs.foldl opStep s) := by
  induction evs with
  | nil => intro s hs; simpa using hs
  | cons e rest ih =>
    intro s hs
    exact ih (opStep s e) (opStep_preserves_inv s e hs)

theorem opRun_inv (evs : List OpEvent) : OpInv (opRun evs) := by
  have hstart : OpInv opBegin := by
    constructor
    · intro hf
      simp [opBegin] at hf
    · intro _
      rfl
  exact foldl_opStep_inv evs opBegin hstart

/-! ### Claim theorems -/

/-- C1: In the dispatcher's accept loop, before every await on the select of
accept completions and the shutdown signal, the set of in-flight AcceptOne
futures is refilled so that its size equals
`CONCURRENT_ACCEPT_OPERATIONS = 1024`; taking a completion drops the size to
`1023` only until the next refill, which restores exactly `1024` before the
next await. -/
theorem accept_loop_pipeline_full (evs : List LoopEvent) (n : Nat)
    (h : pendingAtAwait evs = some n) :
    n = CONCURRENT_ACCEPT_OPERATIONS ∧
    ∀ r : Except IoError Nat,
      (acceptLoopIter n (.acceptCompleted r)).next = some CONCURRENT_ACCEPT_OPERATIONS := by
  have h0 : refill 0 = CONCURRENT_ACCEPT_OPERATIONS := by
    rw [refill_eq_max]; omega
  have hn : n = CONCURRENT_ACCEPT_OPERATIONS := runAcceptLoop_inv evs (refill 0) n h0 h
  refine ⟨hn, ?_⟩
  intro r
  cases r <;> simp [acceptLoopIter, refill_eq_max, hn]

/-- Witness for C1 at a concrete event sequence: one failed accept followed by
one successful accept, starting from loop entry. -/
theorem accept_loop_pipeline_full_witness :
    pendingAtAwait [LoopEvent.acceptCompleted (Except.error (IoError.Winsock 10054)),
        LoopEvent.acceptCompleted (Except.ok 7)] = some CONCURRENT_ACCEPT_OPERATIONS ∧
    CONCURRENT_ACCEPT_OPERATIONS = CONCURRENT_ACCEPT_OPERATIONS := by
  have h : pendingAtAwait [LoopEvent.acceptCompleted (Except.error (IoError.Winsock 10054)),
      LoopEvent.acceptCompleted (Except.ok 7)] = some CONCURRENT_ACCEPT_OPERATIONS := by
    norm_num [pendingAtAwait, runAcceptLoop, acceptLoopIter, refill_eq_max,
      CONCURRENT_ACCEPT_OPERATIONS]
  exact ⟨h, (accept_loop_pipeline_full _ _ h).1⟩

/-- C2: For every operation whose future is dropped while pending, the kernel
control block and the pinned buffer are not freed before the kernel posts the
matching completion packet: in every begin/drop/complete interleaving, if
either resource has been freed then the completion packet was observed, the
result was discarded, and the operation had been abandoned (dropped) — i.e.
release happens only in the step that observes the packet, after discarding. -/
theorem operation_abandonment_safety (evs : List OpEvent)
    (h : (opRun evs).controlBlockFreed = true ∨ (opRun evs).bufferFreed = true) :
    (opRun evs).packetObserved = true ∧ (opRun evs).resultDiscarded = true ∧
    (opRun evs).futureDropped = true :=
  (opRun_inv evs).1 h

/-- Witness for C2: drop the future while pending, then let the packet
arrive; both resources are freed and the theorem applies. -/
theorem operation_abandonment_safety_witness :
    ((opRun [OpEvent.dropFuture, OpEvent.packetArrives]).controlBlockFreed = true ∨
      (opRun [OpEvent.dropFuture, OpEvent.packetArrives]).bufferFreed = true) ∧
    ((opRun [OpEvent.dropFuture, OpEvent.packetArrives]).packetObserved = true ∧
      (opRun [OpEvent.dropFuture, OpEvent.packetArrives]).resultDiscarded = true ∧
      (opRun [OpEvent.dropFuture, OpEvent.packetArrives]).futureDropped = true) :=
  ⟨Or.inl (by decide), operation_abandonment_safety _ (Or.inl (by decide))⟩

/-- The environment refuting C3 as stated: socket creation, `bind` and
`listen` succeed, but binding the listening socket to the completion port
fails. -/
def portBindFailureEnv : StartupEnv :=
  { socketResult := .ok (), bindResult := .ok (), listenResult := .ok (),
    bindToCompletionPortResult := .error (.Winsock 10013) }

/-- C3 counterexample: it is not the case that every startup-step failure,
completion-port binding included, makes the dispatcher send `Err(e)` on the
startup channel — when `bind_io_primitive` fails the dispatcher panics via
`.unwrap()` (tcp_server.rs:299-301) and the channel closes with no message
sent. -/
theorem dispatcher_startup_claim_counterexample :
    ¬ (∀ (env : StartupEnv) (e : IoError),
        env.bindToCompletionPortResult = Except.error e →
        (TcpDispatcher.run env).sent = some (Except.error e)) := by
  intro hclaim
  have h := hclaim portBindFailureEnv (IoError.Winsock 10013) rfl
  simp [TcpDispatcher.run, TcpDispatcher.startup, portBindFailureEnv] at h

/-- C3 (amended): if socket creation, `bind` or `listen` fails, the dispatcher
sends `Err(e)` on the startup channel and exits without entering the accept
loop; if completion-port binding fails, the dispatcher panics and the startup
channel is closed without a message; if startup succeeds, it sends `Ok(())`
(the sender is consumed, so exactly once) and enters the accept loop; and
`build()` returns `Err` exactly when the startup channel yields an error or
is closed without a message. -/
theorem dispatcher_startup_reporting (env : StartupEnv) (e : IoError)
    (msg : StartupMessage) (b : TcpServerBuilder) :
    (env.socketResult = .error e →
      TcpDispatcher.run env =
        { sent := some (.error e), enteredAcceptLoop := false, panicked := false })
  ∧ (env.socketResult = .ok () → env.bindResult = .error e →
      TcpDispatcher.run env =
        { sent := some (.error e), enteredAcceptLoop := false, panicked := false })
  ∧ (env.socketResult = .ok () → env.bindResult = .ok () → env.listenResult = .error e →
      TcpDispatcher.run env =
        { sent := some (.error e), enteredAcceptLoop := false, panicked := false })
  ∧ (env.socketResult = .ok () → env.bindResult = .ok () → env.listenResult = .ok () →
      env.bindToCompletionPortResult = .error e →
      TcpDispatcher.run env = { sent := none, enteredAcceptLoop := false, panicked := true })
  ∧ (env.socketResult = .ok () → env.bindResult = .ok () → env.listenResult = .ok () →
      env.bindToCompletionPortResult = .ok () →
      TcpDispatcher.run env =
        { sent := some (.ok ()), enteredAcceptLoop := true, panicked := false })
  ∧ (b.port.isSome = true → b.on_accept.isSome = true →
      ((∃ e', (b.build msg).1 = .error e') ↔ msg ≠ some (.ok ()))) := by
  refine ⟨?_, ?_, ?_, ?_, ?_, ?_⟩
  · intro h1
    simp [TcpDispatcher.run, TcpDispatcher.startup, h1]
  · intro h1 h2
    simp [TcpDispatcher.run, TcpDispatcher.startup, h1, h2]
  · intro h1 h2 h3
    simp [TcpDispatcher.run, TcpDispatcher.startup, h1, h2, h3]
  · intro h1 h2 h3 h4
    simp [TcpDispatcher.run, TcpDispatcher.startup, h1, h2, h3, h4]
  · intro h1 h2 h3 h4
    simp [TcpDispatcher.run, TcpDispatcher.startup, h1, h2, h3, h4]
  · intro hp ha
    rcases b with ⟨port, oa⟩
    cases port with
    | none => simp at hp
    | some p =>
      cases oa with
      | none => simp at ha
      | some u =>
        cases msg with
        | none => simp [TcpServerBuilder.build]
        | some r =>
          cases r with
          | ok v => simp [TcpServerBuilder.build]
          | error e' =>
            simp [TcpServerBuilder.build]

/-- Witness for C3 (amended) at a concrete environment: the all-successful
startup sends `Ok(())` and enters the accept loop. -/
theorem dispatcher_startup_reporting_witness :
    TcpDispatcher.run
        { socketResult := .ok (), bindResult := .ok (), listenResult := .ok (),
          bindToCompletionPortResult := .ok () } =
      { sent := some (.ok ()), enteredAcceptLoop := true, panicked := false } :=
  (dispatcher_startup_reporting
      { socketResult := .ok (), bindResult := .ok (), listenResult := .ok (),
        bindToCompletionPortResult := .ok () }
      (IoError.Winsock 0) none
      { port := some ⟨8080, by decide⟩, on_accept := some () }).2.2.2.2.1 rfl rfl rfl rfl

/-- C4: for every builder on which `port` was never set, `build()` returns
`Err(InvalidOptions("port must be set"))` without spawning the dispatcher
task (and thus before any socket is created, since sockets are created only
inside the dispatcher). -/
theorem build_requires_port (b : TcpServerBuilder) (msg : StartupMessage)
    (h : b.port = none) :
    b.build msg = (.error (.InvalidOptions "port must be set"), false) := by
  rcases b with ⟨port, oa⟩
  obtain rfl : port = none := h
  rfl

/-- Witness for C4: a builder with `on_accept` set but no port. -/
theorem build_requires_port_witness :
    TcpServerBuilder.port { port := none, on_accept := some () } = none ∧
    TcpServerBuilder.build { port := none, on_accept := some () } (some (.ok ())) =
      (.error (.InvalidOptions "port must be set"), false) :=
  ⟨rfl, build_requires_port { port := none, on_accept := some () } (some (.ok ())) rfl⟩

/-- C5: `TcpServerHandle::stop()` is idempotent: the first call sends the
shutdown signal exactly when the sender is still present (consuming it), and
every subsequent call returns immediately, sending nothing and leaving the
handle unchanged. -/
theorem stop_idempotent (h : TcpServerHandle) :
    TcpServerHandle.stop (TcpServerHandle.stop h).1 = ((TcpServerHandle.stop h).1, false) ∧
    (TcpServerHandle.stop h).2 = h.dispatcher_shutdown_tx.isSome ∧
    (TcpServerHandle.stop h).1.dispatcher_shutdown_tx = none ∧
    (TcpServerHandle.stop h).1.dispatcher_join_handle = h.dispatcher_join_handle := by
  rcases h with ⟨j, tx⟩
  cases tx <;> simp [TcpServerHandle.stop]

/-- C6: When an `AcceptOne` future resolves with an error in the accept loop,
the dispatcher logs the error and continues the loop, refilling the accept
set — it does not return, panic, or spawn a handler; in particular from the
full pipeline the next await again sees a full pipeline. -/
theorem accept_error_continues_loop (n : Nat) (e : IoError) :
    (acceptLoopIter n (.acceptCompleted (.error e))).next = some (refill (n - 1)) ∧
    (acceptLoopIter n (.acceptCompleted (.error e))).panicked = false ∧
    (acceptLoopIter n (.acceptCompleted (.error e))).loggedAcceptError = true ∧
    (acceptLoopIter n (.acceptCompleted (.error e))).spawnedHandler = false ∧
    (acceptLoopIter CONCURRENT_ACCEPT_OPERATIONS (.acceptCompleted (.error e))).next =
      some CONCURRENT_ACCEPT_OPERATIONS := by
  refine ⟨rfl, rfl, rfl, rfl, ?_⟩
  norm_num [acceptLoopIter, refill_eq_max, CONCURRENT_ACCEPT_OPERATIONS]

/-- C7: every failed operation result carries the pinned buffer together with
the error: the error variant of `OperationResult` is `OperationError`, holding
the inner I/O error and the buffer, `into_inner_and_buffer` returns exactly
that pair, and `into_inner` on a failed result keeps only the inner error. -/
theorem operation_error_carries_buffer (i : IoError) (b : PinnedBuffer) (e : OperationError) :
    (OperationError.new i b).inner = i ∧
    (OperationError.new i b).buffer = b ∧
    e.into_inner_and_buffer = (e.into_inner, e.buffer) ∧
    OperationResult.into_inner (Except.error e) = Except.error e.inner ∧
    OperationError.new e.inner e.buffer = e :=
  ⟨rfl, rfl, rfl, rfl, rfl⟩

/-- C8: every accept begun by `AcceptOne` passes `receive_data_length = 0` to
`AcceptEx`, with both endpoint-address slots sized
`sizeof(SOCKADDR_IN) + 16 = 32`; for a buffer meeting the pool contract
(length at least `2 × ADDRESS_LENGTH`) the assertion passes and the begin
succeeds. -/
theorem accept_args_spec (buffer : PinnedBuffer)
    (h : ADDRESS_LENGTH * 2 ≤ buffer.len) :
    AcceptOne.beginAcceptArgs buffer =
      some { receiveDataLength := 0, localAddressLength := ADDRESS_LENGTH,
             remoteAddressLength := ADDRESS_LENGTH } ∧
    ADDRESS_LENGTH = sizeof_SOCKADDR_IN + 16 ∧ ADDRESS_LENGTH = 32 := by
  refine ⟨?_, rfl, rfl⟩
  simp [AcceptOne.beginAcceptArgs, h]

/-- Witness for C8: a pool buffer of length 64 (= 2 × ADDRESS_LENGTH). -/
theorem accept_args_spec_witness :
    ADDRESS_LENGTH * 2 ≤ PinnedBuffer.len { id := 1, len := 64 } ∧
    AcceptOne.beginAcceptArgs { id := 1, len := 64 } =
      some { receiveDataLength := 0, localAddressLength := ADDRESS_LENGTH,
             remoteAddressLength := ADDRESS_LENGTH } :=
  ⟨by decide, (accept_args_spec { id := 1, len := 64 } (by decide)).1⟩

/-- C9: `CompletionPort::bind` registers the handle with the port and then —
only if registration succeeded — configures it with
`FILE_SKIP_SET_EVENT_ON_HANDLE`; it returns `Ok` exactly when both steps
succeed, and registration is always the first step attempted. -/
theorem completion_port_bind_spec (env : BindEnv) :
    ((CompletionPort.bind env).1 = .ok () ↔
      (env.registerResult = .ok () ∧ env.setModesResult = .ok ())) ∧
    (env.registerResult = .ok () →
      (CompletionPort.bind env).2 =
        [.registerWithPort, .setNotificationModes FILE_SKIP_SET_EVENT_ON_HANDLE]) ∧
    (CompletionPort.bind env).2.head? = some .registerWithPort ∧
    (∀ e, env.registerResult = .error e → (CompletionPort.bind env).2 = [.registerWithPort]) := by
  rcases env with ⟨r, s⟩
  rcases r with er | u
  · simp [CompletionPort.bind]
  · cases u
    rcases s with es | v
    · simp [CompletionPort.bind]
    · cases v
      simp [CompletionPort.bind]

/-- Witness for C9: both syscalls succeed; bind performs registration then
configures skip-event-on-handle. -/
theorem completion_port_bind_spec_witness :
    (CompletionPort.bind { registerResult := .ok (), setModesResult := .ok () }).2 =
      [.registerWithPort, .setNotificationModes FILE_SKIP_SET_EVENT_ON_HANDLE] :=
  (completion_port_bind_spec { registerResult := .ok (), setModesResult := .ok () }).2.1 rfl

/-- C10: for every builder with `port` set but `on_accept` never set,
`build()` returns `Err(InvalidOptions("on_accept must be set"))` without
spawning the dispatcher; and when both are unset the port error is returned
(port is checked first). -/
theorem build_requires_on_accept (b : TcpServerBuilder) (msg : StartupMessage) :
    (b.port.isSome = true → b.on_accept = none →
      b.build msg = (.error (.InvalidOptions "on_accept must be set"), false)) ∧
    (b.port = none → b.on_accept = none →
      b.build msg = (.error (.InvalidOptions "port must be set"), false)) := by
  rcases b with ⟨port, oa⟩
  constructor
  · intro hp ha
    obtain rfl : oa = none := ha
    cases port with
    | none => simp at hp
    | some p => rfl
  · intro hp _
    obtain rfl : port = none := hp
    rfl

/-- Witness for C10: a builder with port 8080 and no `on_accept`, and a
builder with neither option. -/
theorem build_requires_on_accept_witness :
    TcpServerBuilder.build { port := some ⟨8080, by decide⟩, on_accept := none } none =
      (.error (.InvalidOptions "on_accept must be set"), false) ∧
    TcpServerBuilder.build { port := none, on_accept := none } none =
      (.error (.InvalidOptions "port must be set"), false) :=
  ⟨(build_requires_on_accept { port := some ⟨8080, by decide⟩, on_accept := none } none).1
      rfl rfl,
   (build_requires_on_accept { port := none, on_accept := none } none).2 rfl rfl⟩

end Folo



